import Mathlib

/-!
Verification of `src/Chapter01_Markov_Chains/utilities.py`, a style
initializer for a plotting library.  The global configuration registry
(matplotlib's `rcParams` together with the `plt.rc`-written color cycle) is
embedded as a map from option names to values; `init` is embedded as a pure
state transformer performing the same sequence of writes as the source.
-/

namespace Utilities

/-- A value stored in the plotting library's global configuration registry. -/
inductive RcValue where
  | nat : Nat → RcValue
  | str : String → RcValue
  | bool : Bool → RcValue
  | strList : List String → RcValue
  | cycle : List String → RcValue
deriving DecidableEq, Repr

/-- The process-wide plotting configuration: a mapping from option name to
value (`mpl.rcParams` plus the axes property cycle set through `plt.rc`). -/
abbrev Config := String → Option RcValue

/-- Writing one entry of the configuration registry
(`mpl.rcParams[k] = v`). -/
def rcUpdate (c : Config) (k : String) (v : RcValue) : Config :=
  fun q => if q = k then some v else c q

/-- The module-level palette `COLORS` of utilities.py (line 5). -/
def COLORS : List String :=
  ["#242482", "#F00D2C", "#0071BE", "#4E8F00", "#553C67", "#DA5319"]

/-- Embedding of `init(use_latex=False)` (utilities.py lines 7-17): the nine
`rcParams` writes in source order followed by the `plt.rc` call installing
the color cycle built from `COLORS`. -/
def init (use_latex : Bool) (c : Config) : Config :=
  let c1 := rcUpdate c "figure.dpi" (.nat 150)
  let c2 := rcUpdate c1 "axes.linewidth" (.nat 2)
  let c3 := rcUpdate c2 "lines.linewidth" (.nat 2)
  let c4 := rcUpdate c3 "font.size" (.nat 14)
  let c5 := rcUpdate c4 "legend.fontsize" (.nat 10)
  let c6 := rcUpdate c5 "pdf.fonttype" (.nat 42)
  let c7 := rcUpdate c6 "figure.facecolor" (.str "white")
  let c8 := rcUpdate c7 "font.sans-serif"
    (.strList ["Helvetica Neue", "Helvetica", "Tahoma"])
  let c9 := rcUpdate c8 "text.usetex" (.bool use_latex)
  rcUpdate c9 "axes.prop_cycle" (.cycle COLORS)

/-- A Python call to `init`: the single parameter is optional with default
`False`, so a call site either supplies a boolean or omits it. -/
def initCall (arg : Option Bool) (c : Config) : Config :=
  init (arg.getD false) c

/-- The Python return value of `init`: its body contains no return
statement, so the call returns `None` (here `Option.none`) alongside the
updated configuration. -/
def initResult (use_latex : Bool) (c : Config) : Config × Option RcValue :=
  (init use_latex c, none)

/-- The configuration keys written by `init`. -/
def writtenKeys : List String :=
  ["figure.dpi", "axes.linewidth", "lines.linewidth", "font.size",
   "legend.fontsize", "pdf.fonttype", "figure.facecolor", "font.sans-serif",
   "text.usetex", "axes.prop_cycle"]

/-- A hexadecimal digit character. -/
def isHexDigit (ch : Char) : Bool :=
  ch.isDigit || (('A' ≤ ch) && (ch ≤ 'F')) || (('a' ≤ ch) && (ch ≤ 'f'))

/-- A color specifier of the form `#RRGGBB`: seven characters, a leading
hash mark followed by six hexadecimal digits. -/
def isHexColor (s : String) : Bool :=
  s.data.length == 7 && s.data.head? == some '#' &&
    (s.data.drop 1).all isHexDigit

/-- Modelled from the spec: the external plotting library resolves named
color specifiers to hex codes; the spec's example states that after
initialization the figure background color is `#FFFFFF`, i.e. the library
resolves the name `white` to `#FFFFFF`.  (The resolver itself lives in the
external library, not in src/.) -/
def colorSpecHex (s : String) : String :=
  if s = "white" then "#FFFFFF" else s

/-- Modelled from the spec's glossary: a color cycle is "an ordered,
wrapping sequence of colors assigned to successive data series", so series
`i` receives entry `i` modulo the cycle length.  (The cycling mechanism
lives in the external library, not in src/.) -/
def cycleColor (cs : List String) (i : Nat) : Option String :=
  cs.get? (i % cs.length)

/-- Modelled from the spec: the external configuration registry recognizes a
fixed set of option names; the spec states that every option `init` writes
is "in the recognized set".  Only the keys touched by utilities.py are
needed here; the library's full set is a superset. -/
def knownRcKeys : List String := writtenKeys

/-- Modelled from the spec: a checked configuration write, which fails (the
external library raises) exactly when the option name is not recognized. -/
def rcSet (c : Config) (k : String) (v : RcValue) : Except String Config :=
  if k ∈ knownRcKeys then .ok (rcUpdate c k v) else .error k

/-- `init` with every configuration write checked against the recognized
key set, in source order. -/
def initChecked (use_latex : Bool) (c : Config) : Except String Config := do
  let c1 ← rcSet c "figure.dpi" (.nat 150)
  let c2 ← rcSet c1 "axes.linewidth" (.nat 2)
  let c3 ← rcSet c2 "lines.linewidth" (.nat 2)
  let c4 ← rcSet c3 "font.size" (.nat 14)
  let c5 ← rcSet c4 "legend.fontsize" (.nat 10)
  let c6 ← rcSet c5 "pdf.fonttype" (.nat 42)
  let c7 ← rcSet c6 "figure.facecolor" (.str "white")
  let c8 ← rcSet c7 "font.sans-serif"
    (.strList ["Helvetica Neue", "Helvetica", "Tahoma"])
  let c9 ← rcSet c8 "text.usetex" (.bool use_latex)
  rcSet c9 "axes.prop_cycle" (.cycle COLORS)

/-- Reading the configuration produced by `init` at an arbitrary key. -/
theorem init_apply (b : Bool) (c : Config) (k : String) :
    init b c k =
      if k = "axes.prop_cycle" then some (.cycle COLORS)
      else if k = "text.usetex" then some (.bool b)
      else if k = "font.sans-serif" then
        some (.strList ["Helvetica Neue", "Helvetica", "Tahoma"])
      else if k = "figure.facecolor" then some (.str "white")
      else if k = "pdf.fonttype" then some (.nat 42)
      else if k = "legend.fontsize" then some (.nat 10)
      else if k = "font.size" then some (.nat 14)
      else if k = "lines.linewidth" then some (.nat 2)
      else if k = "axes.linewidth" then some (.nat 2)
      else if k = "figure.dpi" then some (.nat 150)
      else c k := rfl

/-- At a key `init` does not write, the configuration is unchanged. -/
theorem init_apply_unwritten (b : Bool) (c : Config) (k : String)
    (h : k ∉ writtenKeys) : init b c k = c k := by
  simp only [writtenKeys, List.mem_cons, List.not_mem_nil, or_false,
    not_or] at h
  obtain ⟨h1, h2, h3, h4, h5, h6, h7, h8, h9, h10⟩ := h
  rw [init_apply]
  simp [h1, h2, h3, h4, h5, h6, h7, h8, h9, h10]

/-- At a written key, the value `init` produces does not depend on the
prior configuration. -/
theorem init_apply_written (b : Bool) (c1 c2 : Config) (k : String)
    (h : k ∈ writtenKeys) : init b c1 k = init b c2 k := by
  rw [init_apply, init_apply]
  fin_cases h <;> rfl

/-- C1: for every boolean argument `b`, after `init b` the configuration key
`text.usetex` equals `b`; a call with no arguments leaves the LaTeX toggle
off, and `init true` sets it on. -/
theorem init_usetex (b : Bool) (c : Config) :
    init b c "text.usetex" = some (.bool b) ∧
    initCall none c "text.usetex" = some (.bool false) ∧
    initCall (some true) c "text.usetex" = some (.bool true) := by
  refine ⟨?_, ?_, ?_⟩ <;> simp [initCall, init_apply]

/-- C2: after any call to `init`, the configuration holds the fixed style
values: `figure.dpi = 150`, `axes.linewidth = 2`, `lines.linewidth = 2`,
`font.size = 14`, `legend.fontsize = 10`, `pdf.fonttype = 42`, figure
background color `white` (which the library resolves to `#FFFFFF`), and
`font.sans-serif` the ordered list Helvetica Neue, Helvetica, Tahoma. -/
theorem init_style_values (b : Bool) (c : Config) :
    init b c "figure.dpi" = some (.nat 150) ∧
    init b c "axes.linewidth" = some (.nat 2) ∧
    init b c "lines.linewidth" = some (.nat 2) ∧
    init b c "font.size" = some (.nat 14) ∧
    init b c "legend.fontsize" = some (.nat 10) ∧
    init b c "pdf.fonttype" = some (.nat 42) ∧
    init b c "figure.facecolor" = some (.str "white") ∧
    colorSpecHex "white" = "#FFFFFF" ∧
    init b c "font.sans-serif" =
      some (.strList ["Helvetica Neue", "Helvetica", "Tahoma"]) := by
  refine ⟨?_, ?_, ?_, ?_, ?_, ?_, ?_, ?_, ?_⟩ <;>
    simp [init_apply, colorSpecHex]

/-- C3: after any call to `init` the default series-color cycle equals the
six-entry `COLORS` palette in order, and series `i` receives palette entry
`i mod 6`; in particular the seventh series (index 6) reuses entry 0. -/
theorem init_color_cycle (b : Bool) (c : Config) (i : Nat) :
    init b c "axes.prop_cycle" = some (.cycle COLORS) ∧
    COLORS.length = 6 ∧
    cycleColor COLORS i = COLORS.get? (i % 6) ∧
    cycleColor COLORS 6 = COLORS.get? 0 := by
  refine ⟨by simp [init_apply], rfl, rfl, rfl⟩

/-- C4: for all flags `a`, `b` and every starting configuration, `init a`
followed by `init b` leaves the configuration exactly as `init b` alone
does (last write wins); with `a = b` this is idempotence. -/
theorem init_last_write_wins (a b : Bool) (c : Config) :
    init b (init a c) = init b c := by
  funext k
  by_cases h : k ∈ writtenKeys
  · exact init_apply_written b (init a c) c k h
  · rw [init_apply_unwritten b (init a c) k h, init_apply_unwritten a c k h,
      init_apply_unwritten b c k h]

/-- C5: the `COLORS` palette has exactly six entries, each a valid hex
color of the form `#RRGGBB`; it is a fixed constant that `init` only
reads (the cycle it installs is the palette itself, for any flag and any
starting configuration). -/
theorem COLORS_invariant :
    COLORS.length = 6 ∧
    COLORS.all isHexColor = true ∧
    ∀ (b : Bool) (c : Config),
      init b c "axes.prop_cycle" = some (.cycle COLORS) := by
  refine ⟨rfl, by decide, fun b c => by simp [init_apply]⟩

/-- C6: calling the initializer with the default flag raises no error:
every checked configuration write succeeds, and the checked run returns
exactly the configuration that the unchecked `init` produces. -/
theorem init_no_error (c : Config) :
    initChecked false c = Except.ok (init false c) := rfl

/-- C7: the single parameter defaults to `false`, so a call with no
arguments produces the same final configuration as an explicit
`init false`, from any starting state. -/
theorem init_default_flag (c : Config) :
    initCall none c = initCall (some false) c ∧
    initCall none c = init false c := ⟨rfl, rfl⟩

/-- C8: for every boolean argument, the function returns no value: its
Python result is `None`, carrying no success indicator or data. -/
theorem init_returns_none (b : Bool) (c : Config) :
    (initResult b c).2 = none := rfl

/-- C9: frame property: `init` modifies only the nine listed `rcParams`
keys plus the axes color-cycle key; every other configuration entry is
unchanged. -/
theorem init_frame (b : Bool) (c : Config) (k : String)
    (h : k ∉ writtenKeys) : init b c k = c k := by
  simp only [writtenKeys, List.mem_cons, List.not_mem_nil, or_false,
    not_or] at h
  obtain ⟨h1, h2, h3, h4, h5, h6, h7, h8, h9, h10⟩ := h
  rw [init_apply]
  simp [h1, h2, h3, h4, h5, h6, h7, h8, h9, h10]

/-- Witness for C9: the key `font.family` is not written, and `init` leaves
it at its prior value. -/
theorem init_frame_witness :
    ("font.family" ∉ writtenKeys) ∧
    init true (fun _ => some (.nat 7)) "font.family" =
      (fun (_ : String) => some (RcValue.nat 7)) "font.family" :=
  ⟨by decide, init_frame true (fun _ => some (.nat 7)) "font.family"
    (by decide)⟩

/-- C10: noninterference: the values `init` writes depend only on its flag
and not on the prior configuration — for any two starting states and any
written key, the results agree. -/
theorem init_noninterference (b : Bool) (c1 c2 : Config) (k : String)
    (h : k ∈ writtenKeys) : init b c1 k = init b c2 k := by
  rw [init_apply, init_apply]
  fin_cases h <;> rfl

/-- Witness for C10: at the written key `text.usetex`, two different
starting configurations yield the same written value. -/
theorem init_noninterference_witness :
    ("text.usetex" ∈ writtenKeys) ∧
    init true (fun _ => none) "text.usetex" =
      init true (fun _ => some (.nat 0)) "text.usetex" :=
  ⟨by decide, init_noninterference true (fun _ => none)
    (fun _ => some (.nat 0)) "text.usetex" (by decide)⟩

end Utilities
